import Mathlib

/-!
Shallow embedding of the loan-origination backend (Loan model and the
loan-route credit engines).  Numbers are modelled as exact rationals;
JavaScript division by zero (which yields NaN) is modelled by Option.
-/

/-- JavaScript Math.round: rounds half toward positive infinity,
Math.round x = floor (x + 1/2). -/
def jsRound (q : ℚ) : ℤ := ⌊q + 1/2⌋

/-- One entry of a loan payment history.  The first router reads the
status field of each entry (p.status === "paid"); the second, older
router stores entries as bare status strings (p === "paid"), which this
shared model represents by the same status field. -/
structure PaymentEntry where
  status : String
deriving DecidableEq

/-- The Loan document fields consumed by the credit engines
(model from the LoanSchema and the fields the routes select).
Fields that JavaScript defaults with a trailing || 0 are total here. -/
structure Loan where
  loanAmount : ℚ
  loanPurpose : String
  loanTerm : ℕ
  interestRate : ℚ
  status : String
  loanType : String
  creditLimit : ℚ
  lenderName : String
  paymentHistory : List PaymentEntry
deriving DecidableEq

/-- The totalRepayment virtual of LoanSchema:
monthlyInterestRate = interestRate / 100 / 12;
payment = loanAmount * (r * (1+r)^loanTerm) / ((1+r)^loanTerm - 1);
returns payment * loanTerm.  When the denominator (1+r)^loanTerm - 1 is
zero the JavaScript division yields NaN, modelled as none. -/
def totalRepayment (loanAmount interestRate : ℚ) (loanTerm : ℕ) : Option ℚ :=
  let r := interestRate / 100 / 12
  let denom := (1 + r) ^ loanTerm - 1
  if denom = 0 then none
  else some (loanAmount * (r * (1 + r) ^ loanTerm) / denom * loanTerm)

/-- The monthlyPayment virtual of LoanSchema: totalRepayment / loanTerm.
A zero loanTerm would again divide by zero, modelled as none. -/
def monthlyPayment (loanAmount interestRate : ℚ) (loanTerm : ℕ) : Option ℚ :=
  match totalRepayment loanAmount interestRate loanTerm with
  | none => none
  | some t => if loanTerm = 0 then none else some (t / loanTerm)

/-- Days in the month with linear index mu (month mu % 12, zero-based
January = 0, of year mu / 12), proleptic Gregorian calendar as used by
ECMAScript Date. -/
def isLeap (y : ℕ) : Bool := y % 4 = 0 && (y % 100 != 0 || y % 400 = 0)

def daysInMonthIdx (mu : ℕ) : ℕ :=
  let m := mu % 12
  if m = 1 then (if isLeap (mu / 12) then 29 else 28)
  else if m = 3 ∨ m = 5 ∨ m = 8 ∨ m = 10 then 30
  else 31

/-- Absolute day number of the first day of the month with linear index
mu, counting from day 0 = Jan 1 of year 0. -/
def daysBefore : ℕ → ℕ
  | 0 => 0
  | mu + 1 => daysBefore mu + daysInMonthIdx mu

/-- ECMAScript MakeDay at day granularity: the absolute day number of
the civil date (year y, zero-based month m, one-based day d).  A day
past the end of the month normalizes into the following months, exactly
as Date.setMonth does; time of day and timezone are constant across a
schedule and do not affect ordering, so they are not modelled. -/
def makeDay (y m d : ℕ) : ℕ := daysBefore (12 * y + m) + (d - 1)

/-- One entry of a repayment schedule, with the due date as an absolute
day number. -/
structure Installment where
  dueDate : ℕ
  amount : ℚ
  status : String
deriving DecidableEq

/-- LoanSchema.methods.generateRepaymentSchedule: for i = 1..loanTerm
pushes { dueDate := startDate advanced by i months via setMonth,
amount := the monthlyPayment value mp of the loan, status "Pending" }.
The anchor new Date() is passed in as its civil date (y, m, d). -/
def generateRepaymentSchedule (y m d : ℕ) (mp : ℚ) (loanTerm : ℕ) :
    List Installment :=
  (List.range loanTerm).map (fun j =>
    { dueDate := makeDay y (m + (j + 1)) d, amount := mp, status := "Pending" })

-- Basic calendar facts

theorem daysInMonthIdx_pos (mu : ℕ) : 0 < daysInMonthIdx mu := by
  unfold daysInMonthIdx
  dsimp only
  split
  · split <;> norm_num
  · split <;> norm_num

theorem daysBefore_strictMono : StrictMono daysBefore := by
  apply strictMono_nat_of_lt_succ
  intro n
  show daysBefore n < daysBefore n + daysInMonthIdx n
  have := daysInMonthIdx_pos n
  omega

-- The annuity denominator is positive for a positive rate and a term
-- of at least one month.

theorem annuity_denom_pos (rate : ℚ) (n : ℕ) (hr : 0 < rate) (hn : 1 ≤ n) :
    0 < (1 + rate / 100 / 12) ^ n - 1 := by
  have hrpos : 0 < rate / 100 / 12 := by positivity
  have h1 : (1 : ℚ) < 1 + rate / 100 / 12 := by linarith
  have := one_lt_pow₀ h1 (by omega : n ≠ 0)
  linarith

-- The general annuity-formula lemma behind claim C1.

theorem monthlyPayment_eq_annuity (P rate : ℚ) (n : ℕ)
    (hr : 0 < rate) (hn : 1 ≤ n) :
    monthlyPayment P rate n =
      some (P * ((rate / 100 / 12) * (1 + rate / 100 / 12) ^ n) /
        ((1 + rate / 100 / 12) ^ n - 1)) := by
  have hd := annuity_denom_pos rate n hr hn
  have hdne : (1 + rate / 100 / 12) ^ n - 1 ≠ 0 := ne_of_gt hd
  have hnne : (n : ℚ) ≠ 0 := by
    exact_mod_cast Nat.cast_ne_zero.mpr (by omega)
  simp only [monthlyPayment, totalRepayment]
  rw [if_neg hdne]
  dsimp only
  rw [if_neg (by omega : ¬ n = 0)]
  rw [mul_div_cancel_right₀ _ hnne]

/-- C1 counterexample: for principal 12000, annual rate 8.5 percent and
term 12 months, the monthly payment does NOT round to 1046.84 at two
decimals (it rounds to 1046.64). -/
theorem C1_counterexample :
    ¬ (monthlyPayment 12000 (8.5 : ℚ) 12).map (fun q => jsRound (q * 100)) =
      some 104684 := by
  have h : (monthlyPayment 12000 (8.5 : ℚ) 12).map (fun q => jsRound (q * 100)) =
      some 104664 := by
    simp only [monthlyPayment, totalRepayment, jsRound]
    norm_num
  rw [h]
  intro hc
  exact absurd (Option.some.inj hc) (by decide)

/-- C1 (amended): for every loan with positive interest rate and term of
at least one month, monthlyPayment equals the fixed-payment annuity
formula P * r * (1+r)^n / ((1+r)^n - 1) with r = interestRate/100/12;
for P = 12000, rate = 8.5, n = 12 the payment rounds at two decimals to
1046.64 and the total repayment to 12559.65. -/
theorem C1_monthlyPayment_annuity :
    (∀ (P rate : ℚ) (n : ℕ), 0 < rate → 1 ≤ n →
      monthlyPayment P rate n =
        some (P * ((rate / 100 / 12) * (1 + rate / 100 / 12) ^ n) /
          ((1 + rate / 100 / 12) ^ n - 1))) ∧
    (monthlyPayment 12000 (8.5 : ℚ) 12).map (fun q => jsRound (q * 100)) =
      some 104664 ∧
    (totalRepayment 12000 (8.5 : ℚ) 12).map (fun q => jsRound (q * 100)) =
      some 1255965 := by
  refine ⟨fun P rate n hr hn => monthlyPayment_eq_annuity P rate n hr hn, ?_, ?_⟩
  · simp only [monthlyPayment, totalRepayment, jsRound]
    norm_num
  · simp only [totalRepayment, jsRound]
    norm_num

/-- Witness for C1: the annuity formula instantiated at the concrete
example loan. -/
theorem C1_witness :
    0 < (8.5 : ℚ) ∧ 1 ≤ 12 ∧
    monthlyPayment 12000 (8.5 : ℚ) 12 =
      some (12000 * (((8.5 : ℚ) / 100 / 12) * (1 + (8.5 : ℚ) / 100 / 12) ^ 12) /
        ((1 + (8.5 : ℚ) / 100 / 12) ^ 12 - 1)) :=
  ⟨by norm_num, by norm_num,
    C1_monthlyPayment_annuity.1 12000 (8.5 : ℚ) 12 (by norm_num) (by norm_num)⟩

/-- C2: at an effective monthly rate of zero the code divides by zero
((1+0)^n - 1 = 0): the monthly payment computation yields no number
(NaN in JavaScript) instead of the specified principal / termMonths,
which for principal 12000 and term 12 would be exactly 1000. -/
theorem C2_zero_rate_divides_by_zero :
    monthlyPayment 12000 0 12 = none ∧ (12000 : ℚ) / 12 = 1000 := by
  constructor
  · simp only [monthlyPayment, totalRepayment]
    norm_num
  · norm_num

/-- C3: for a loan whose monthly payment evaluates to mp,
generateRepaymentSchedule produces exactly loanTerm installments;
installment i (zero-based index i, human index i+1) is due on the
creation date advanced by exactly i+1 calendar months, for the flat
amount mp, with status Pending; due dates are strictly increasing, one
calendar month apart between consecutive installments. -/
theorem C3_generateRepaymentSchedule (y m d : ℕ) (P rate mp : ℚ) (n : ℕ)
    (hmp : monthlyPayment P rate n = some mp) :
    (generateRepaymentSchedule y m d mp n).length = n ∧
    (∀ i, i < n → (generateRepaymentSchedule y m d mp n)[i]? =
      some { dueDate := makeDay y (m + (i + 1)) d, amount := mp,
             status := "Pending" }) ∧
    List.Pairwise (fun a b => a.dueDate < b.dueDate)
      (generateRepaymentSchedule y m d mp n) ∧
    (∀ i, i + 1 < n → makeDay y (m + (i + 1)) d < makeDay y (m + (i + 2)) d) := by
  clear hmp
  refine ⟨?_, ?_, ?_, ?_⟩
  · simp [generateRepaymentSchedule]
  · intro i hi
    simp [generateRepaymentSchedule, List.getElem?_map, List.getElem?_range, hi]
  · unfold generateRepaymentSchedule
    rw [List.pairwise_map]
    refine (List.pairwise_lt_range n).imp ?_
    intro j k hjk
    simp only [makeDay]
    have h1 : 12 * y + (m + (j + 1)) < 12 * y + (m + (k + 1)) := by omega
    have h2 := daysBefore_strictMono h1
    omega
  · intro i hi
    simp only [makeDay]
    have h1 : 12 * y + (m + (i + 1)) < 12 * y + (m + (i + 2)) := by omega
    have h2 := daysBefore_strictMono h1
    omega

/-- Witness for C3: a one-month loan of 1000 at 12 percent anchored at
Jan 31 of year 1; its single installment is due one calendar month
later, for the monthly payment 1010, with status Pending. -/
theorem C3_witness :
    monthlyPayment 1000 12 1 = some 1010 ∧
    (generateRepaymentSchedule 1 0 31 1010 1)[0]? =
      some { dueDate := makeDay 1 (0 + (0 + 1)) 31, amount := 1010,
             status := "Pending" } := by
  have h : monthlyPayment 1000 12 1 = some 1010 := by
    simp only [monthlyPayment, totalRepayment]
    norm_num
  exact ⟨h, (C3_generateRepaymentSchedule 1 0 31 1000 12 1010 1 h).2.1 0
    (by norm_num)⟩

/-!
Credit Scoring Engine, first credit-report handler
(calculateCreditScore and the derived report fields).
-/

/-- Count of payment history entries with status "paid". -/
def paidCount (l : Loan) : ℕ :=
  (l.paymentHistory.filter (fun p => p.status = "paid")).length

/-- Per-loan payment history ratio: paid / total, where a zero length
is replaced by 1 (the JavaScript total = history.length || 1). -/
def historyRatio (l : Loan) : ℚ :=
  (paidCount l : ℚ) /
    (if l.paymentHistory.length = 0 then 1 else (l.paymentHistory.length : ℚ))

/-- Payment history factor (weight 0.4): mean history ratio. -/
def paymentHistoryFactor (loans : List Loan) : ℚ :=
  (loans.map historyRatio).sum / loans.length

/-- Sum of loanAmount over loans with status Active. -/
def totalDebt (loans : List Loan) : ℚ :=
  (loans.map (fun l => if l.status = "Active" then l.loanAmount else 0)).sum

/-- Sum of creditLimit over Active loans of loanType Credit. -/
def totalCredit (loans : List Loan) : ℚ :=
  (loans.map (fun l =>
    if l.status = "Active" ∧ l.loanType = "Credit" then l.creditLimit
    else 0)).sum

/-- Credit utilization factor (weight 0.2):
1 - min(totalDebt / totalCredit, 1), utilization 0 when totalCredit is
not positive. -/
def utilizationFactor (loans : List Loan) : ℚ :=
  let utilization :=
    if 0 < totalCredit loans then totalDebt loans / totalCredit loans else 0
  1 - min utilization 1

/-- Credit mix factor (weight 0.1): number of distinct loanPurpose
values (the JavaScript Set size) divided by 5. -/
def creditMixFactor (loans : List Loan) : ℚ :=
  ((loans.map Loan.loanPurpose).dedup.length : ℚ) / 5

/-- The statusWeights lookup of the first scoring function; a status
absent from the object (including Completed) falls back to 0 via || 0. -/
def statusWeight (s : String) : ℚ :=
  if s = "Paid" then 5
  else if s = "Active" then 3
  else if s = "Defaulted" then -10
  else if s = "Pending" then 1
  else 0

/-- Account status factor (weight 0.3): mean status weight. -/
def accountStatusFactor (loans : List Loan) : ℚ :=
  (loans.map (fun l => statusWeight l.status)).sum / loans.length

/-- Sum of factor.value * factor.weight * (maxScore - baseScore) over
the four factors, in object order. -/
def weightedScore (loans : List Loan) : ℚ :=
  paymentHistoryFactor loans * 0.4 * (850 - 300) +
  utilizationFactor loans * 0.2 * (850 - 300) +
  creditMixFactor loans * 0.1 * (850 - 300) +
  accountStatusFactor loans * 0.3 * (850 - 300)

/-- calculateCreditScore of the first credit-report handler:
Math.min(Math.max(Math.round(300 + weightedScore), 300), 850). -/
def calculateCreditScore (loans : List Loan) : ℤ :=
  min (max (jsRound (300 + weightedScore loans)) 300) 850

/-- The scoreRange band of the credit-report handlers. -/
def scoreRange (score : ℤ) : String :=
  if 720 ≤ score then "Excellent"
  else if 650 ≤ score then "Good"
  else if 580 ≤ score then "Fair"
  else "Poor"

/-- availableCredit of the first credit-report handler: each Active
Credit loan contributes Math.max(0, creditLimit - loanAmount). -/
def availableCredit (loans : List Loan) : ℚ :=
  (loans.map (fun l =>
    if l.status = "Active" ∧ l.loanType = "Credit"
    then max 0 (l.creditLimit - l.loanAmount)
    else 0)).sum

/-- creditUtilization string of the first handler:
round(totalDebt / (totalDebt + availableCredit) * 100) + "%" when
totalDebt > 0, else "0%". -/
def creditUtilizationStr (loans : List Loan) : String :=
  if 0 < totalDebt loans then
    toString (jsRound
      (totalDebt loans / (totalDebt loans + availableCredit loans) * 100)) ++ "%"
  else "0%"

/-- One account entry of the credit report.  The date-valued fields
(opened, nextPaymentDate) and the fields absent from the lean database
document (monthlyPayment, remainingTerm) depend on the clock or on
fields outside this data model and are not modelled; the remaining
fields are the pure projections the handler computes. -/
structure Account where
  name : String
  type : String
  status : String
  balance : ℚ
  term : String
  paymentHistory : List PaymentEntry
  creditLimit : ℚ
  loanType : String
deriving DecidableEq

/-- The per-loan account projection of the first credit-report handler;
a JavaScript || default fires on the empty string or, for loanAmount
and creditLimit, on 0 (which the default reproduces). -/
def toAccount (l : Loan) : Account :=
  { name := if l.lenderName = "" then "Personal Loan" else l.lenderName
    type := if l.loanPurpose = "" then "Personal Loan"
            else l.loanPurpose ++ " Loan"
    status := if l.status = "" then "Pending" else l.status
    balance := l.loanAmount
    term := toString l.loanTerm ++ " months"
    paymentHistory := l.paymentHistory
    creditLimit := l.creditLimit
    loanType := if l.loanType = "" then "Term" else l.loanType }

/-- The credit report returned by the first handler (the modelled
fields; the constant empty inquiries and publicRecords arrays and the
clock-valued lastUpdated are not modelled). -/
structure CreditReport where
  creditScore : ℤ
  scoreRange : String
  accounts : List Account
  creditUtilization : String
  totalDebt : ℚ
  availableCredit : ℚ
  openAccounts : ℕ
deriving DecidableEq

/-- GET /loans/credit-report, first router: an empty loan set returns
the sentinel report; otherwise the scoring engine and the derived
projections run on the loan set. -/
def creditReport (loans : List Loan) : CreditReport :=
  if loans.length = 0 then
    { creditScore := 0
      scoreRange := "No Credit History"
      accounts := []
      creditUtilization := "0%"
      totalDebt := 0
      availableCredit := 0
      openAccounts := 0 }
  else
    { creditScore := calculateCreditScore loans
      scoreRange := scoreRange (calculateCreditScore loans)
      accounts := loans.map toAccount
      creditUtilization := creditUtilizationStr loans
      totalDebt := totalDebt loans
      availableCredit := availableCredit loans
      openAccounts := loans.length }

/-- calculateCreditScore of the second (older) credit-report router:
payment history scaled by 400, utilization headroom by 200, 10 points
per distinct purpose, and a raw (un-averaged) status sum of
5 * paid + 3 * active - 10 * defaulted, clamped to [300, 850]. -/
def calculateCreditScore2 (loans : List Loan) : ℤ :=
  if loans.length = 0 then 0
  else
    let paymentHistoryScore := (loans.map historyRatio).sum / loans.length * 400
    let utilization :=
      if 0 < totalCredit loans then totalDebt loans / totalCredit loans else 0
    let utilizationScore := (1 - min utilization 1) * 200
    let mixScore := ((loans.map Loan.loanPurpose).dedup.length : ℚ) * 10
    let statusScore :=
      ((loans.filter (fun l => l.status = "Paid")).length : ℚ) * 5 +
      ((loans.filter (fun l => l.status = "Active")).length : ℚ) * 3 -
      ((loans.filter (fun l => l.status = "Defaulted")).length : ℚ) * 10
    min (max (jsRound (paymentHistoryScore + utilizationScore +
      mixScore + statusScore)) 300) 850

-- Example loans used as concrete inputs.

/-- An Active revolving loan with a partially paid history (the worked
example of the spec). -/
def loanA : Loan :=
  { loanAmount := 5000, loanPurpose := "Home", loanTerm := 12,
    interestRate := 8.5, status := "Active", loanType := "Credit",
    creditLimit := 10000, lenderName := "Premium Lender",
    paymentHistory := [{ status := "paid" }, { status := "paid" },
      { status := "missed" }] }

/-- A fresh Pending term loan with no payment history. -/
def loanB : Loan :=
  { loanAmount := 2000, loanPurpose := "Personal", loanTerm := 24,
    interestRate := 8.5, status := "Pending", loanType := "Term",
    creditLimit := 0, lenderName := "General Application",
    paymentHistory := [] }

-- Permutation invariance of each scoring factor.

theorem paymentHistoryFactor_perm {l1 l2 : List Loan} (h : l1.Perm l2) :
    paymentHistoryFactor l1 = paymentHistoryFactor l2 := by
  unfold paymentHistoryFactor
  rw [(h.map historyRatio).sum_eq, h.length_eq]

theorem totalDebt_perm {l1 l2 : List Loan} (h : l1.Perm l2) :
    totalDebt l1 = totalDebt l2 := by
  unfold totalDebt
  exact (h.map _).sum_eq

theorem totalCredit_perm {l1 l2 : List Loan} (h : l1.Perm l2) :
    totalCredit l1 = totalCredit l2 := by
  unfold totalCredit
  exact (h.map _).sum_eq

theorem utilizationFactor_perm {l1 l2 : List Loan} (h : l1.Perm l2) :
    utilizationFactor l1 = utilizationFactor l2 := by
  unfold utilizationFactor
  rw [totalDebt_perm h, totalCredit_perm h]

theorem creditMixFactor_perm {l1 l2 : List Loan} (h : l1.Perm l2) :
    creditMixFactor l1 = creditMixFactor l2 := by
  unfold creditMixFactor
  rw [((h.map Loan.loanPurpose).dedup).length_eq]

theorem accountStatusFactor_perm {l1 l2 : List Loan} (h : l1.Perm l2) :
    accountStatusFactor l1 = accountStatusFactor l2 := by
  unfold accountStatusFactor
  rw [(h.map _).sum_eq, h.length_eq]

/-- C4: the credit score is invariant under any permutation of the
input loan set: it is a pure, order-independent reduction. -/
theorem C4_score_perm_invariant (l1 l2 : List Loan) (h : l1.Perm l2) :
    calculateCreditScore l1 = calculateCreditScore l2 := by
  unfold calculateCreditScore weightedScore
  rw [paymentHistoryFactor_perm h, utilizationFactor_perm h,
    creditMixFactor_perm h, accountStatusFactor_perm h]

/-- Witness for C4: swapping two concrete loans leaves the score
unchanged. -/
theorem C4_witness :
    ([loanA, loanB].Perm [loanB, loanA]) ∧
    calculateCreditScore [loanA, loanB] = calculateCreditScore [loanB, loanA] :=
  ⟨List.Perm.swap loanB loanA [],
    C4_score_perm_invariant [loanA, loanB] [loanB, loanA]
      (List.Perm.swap loanB loanA [])⟩

theorem scoreRange_iff (s : ℤ) :
    (scoreRange s = "Excellent" ↔ 720 ≤ s) ∧
    (scoreRange s = "Good" ↔ 650 ≤ s ∧ s < 720) ∧
    (scoreRange s = "Fair" ↔ 580 ≤ s ∧ s < 650) ∧
    (scoreRange s = "Poor" ↔ s < 580) := by
  unfold scoreRange
  split_ifs with h1 h2 h3 <;>
    refine ⟨?_, ?_, ?_, ?_⟩ <;>
      first
        | exact iff_of_true rfl (by omega)
        | exact iff_of_false (by decide) (by omega)

/-- C5: for a non-empty loan set the credit score equals
round(300 + sum of factorValue * weight * 550) clamped to [300, 850],
so the score always lies within [300, 850]; the band is Excellent iff
score >= 720, Good iff 650 <= score < 720, Fair iff 580 <= score < 650,
and Poor iff score < 580. -/
theorem C5_score_formula_range_band (loans : List Loan) (hne : loans ≠ []) :
    calculateCreditScore loans =
      min (max (jsRound (300 +
        (paymentHistoryFactor loans * 0.4 * 550 +
         utilizationFactor loans * 0.2 * 550 +
         creditMixFactor loans * 0.1 * 550 +
         accountStatusFactor loans * 0.3 * 550))) 300) 850 ∧
    300 ≤ calculateCreditScore loans ∧ calculateCreditScore loans ≤ 850 ∧
    (scoreRange (calculateCreditScore loans) = "Excellent" ↔
      720 ≤ calculateCreditScore loans) ∧
    (scoreRange (calculateCreditScore loans) = "Good" ↔
      650 ≤ calculateCreditScore loans ∧ calculateCreditScore loans < 720) ∧
    (scoreRange (calculateCreditScore loans) = "Fair" ↔
      580 ≤ calculateCreditScore loans ∧ calculateCreditScore loans < 650) ∧
    (scoreRange (calculateCreditScore loans) = "Poor" ↔
      calculateCreditScore loans < 580) := by
  clear hne
  refine ⟨?_, ?_, ?_, (scoreRange_iff _).1, (scoreRange_iff _).2.1,
    (scoreRange_iff _).2.2.1, (scoreRange_iff _).2.2.2⟩
  · unfold calculateCreditScore weightedScore
    norm_num
  · unfold calculateCreditScore
    omega
  · unfold calculateCreditScore
    omega

/-- Witness for C5: the score of a concrete singleton loan set is
within [300, 850]. -/
theorem C5_witness :
    ([loanB] ≠ []) ∧ 300 ≤ calculateCreditScore [loanB] ∧
    calculateCreditScore [loanB] ≤ 850 :=
  ⟨List.cons_ne_nil loanB [],
    (C5_score_formula_range_band [loanB] (List.cons_ne_nil loanB [])).2.1,
    (C5_score_formula_range_band [loanB] (List.cons_ne_nil loanB [])).2.2.1⟩

/-- The account-status contribution exactly as claim C6 words it:
Paid or Completed score +5 (this is what the code does NOT do for
Completed). -/
def claimedStatusContribution (s : String) : ℚ :=
  if s = "Paid" ∨ s = "Completed" then 5
  else if s = "Active" then 3
  else if s = "Defaulted" then -10
  else if s = "Pending" then 1
  else 0

/-- The amended account-status contribution: Completed (absent from the
statusWeights object) falls through to 0; Paid scores +5, Active +3,
Defaulted -10, Pending +1, anything else 0. -/
def amendedStatusContribution (s : String) : ℚ :=
  if s = "Completed" then 0
  else if s = "Paid" then 5
  else if s = "Active" then 3
  else if s = "Defaulted" then -10
  else if s = "Pending" then 1
  else 0

/-- A Completed loan, the status on which the claimed and actual
contributions disagree. -/
def completedLoan : Loan :=
  { loanAmount := 3000, loanPurpose := "Car", loanTerm := 12,
    interestRate := 8.5, status := "Completed", loanType := "Term",
    creditLimit := 0, lenderName := "General Application",
    paymentHistory := [{ status := "paid" }] }

/-- A Defaulted loan, giving a negative mean contribution. -/
def defaultedLoan : Loan :=
  { loanAmount := 3000, loanPurpose := "Car", loanTerm := 12,
    interestRate := 8.5, status := "Defaulted", loanType := "Term",
    creditLimit := 0, lenderName := "General Application",
    paymentHistory := [] }

theorem statusWeight_eq_amended (s : String) :
    statusWeight s = amendedStatusContribution s := by
  unfold statusWeight amendedStatusContribution
  split_ifs <;> simp_all

/-- C6 counterexample: on the singleton set holding one Completed loan
the account-status factor computed by the code is 0, not the mean of
the contributions the claim specifies (which would be 5). -/
theorem C6_counterexample :
    ¬ accountStatusFactor [completedLoan] =
      ([completedLoan].map (fun l => claimedStatusContribution l.status)).sum /
        ([completedLoan].length : ℚ) := by
  have h : statusWeight "Completed" = 0 := by simp [statusWeight]
  have h2 : claimedStatusContribution "Completed" = 5 := by
    simp [claimedStatusContribution]
  norm_num [accountStatusFactor, completedLoan, h, h2]

/-- C6 (amended): for a non-empty loan set the account-status factor
(weight 0.30) is the mean over loans of the per-status contribution
Paid +5, Active +3, Defaulted -10, Pending +1, and 0 for every other
status including Completed; the mean can be negative. -/
theorem C6_accountStatusFactor (loans : List Loan) (hne : loans ≠ []) :
    accountStatusFactor loans =
      (loans.map (fun l => amendedStatusContribution l.status)).sum /
        (loans.length : ℚ) ∧
    accountStatusFactor [defaultedLoan] < 0 := by
  clear hne
  constructor
  · unfold accountStatusFactor
    simp only [statusWeight_eq_amended]
  · have h : statusWeight "Defaulted" = -10 := by simp [statusWeight]
    norm_num [accountStatusFactor, defaultedLoan, h]

/-- Witness for C6: the amended mean formula evaluated on the singleton
Completed loan set. -/
theorem C6_witness :
    ([completedLoan] ≠ []) ∧
    accountStatusFactor [completedLoan] =
      ([completedLoan].map (fun l => amendedStatusContribution l.status)).sum /
        (([completedLoan].length : ℕ) : ℚ) :=
  ⟨List.cons_ne_nil completedLoan [],
    (C6_accountStatusFactor [completedLoan]
      (List.cons_ne_nil completedLoan [])).1⟩

/-- C7: for a non-empty loan set the payment-history factor (weight
0.40) is the mean over loans of the per-loan ratio; for a loan with a
non-empty history the ratio is paid entries over total entries, and a
loan with an empty history uses denominator 1 and contributes exactly
0. -/
theorem C7_paymentHistoryFactor (loans : List Loan) (hne : loans ≠ []) :
    paymentHistoryFactor loans =
      (loans.map historyRatio).sum / (loans.length : ℚ) ∧
    (∀ l ∈ loans, l.paymentHistory = [] → historyRatio l = 0) ∧
    (∀ l ∈ loans, l.paymentHistory ≠ [] →
      historyRatio l = (paidCount l : ℚ) / (l.paymentHistory.length : ℚ)) := by
  clear hne
  refine ⟨rfl, ?_, ?_⟩
  · intro l _ hl
    simp [historyRatio, paidCount, hl]
  · intro l _ hl
    unfold historyRatio
    rw [if_neg (by simpa using hl)]

/-- Witness for C7: the loan with no payment history contributes ratio
exactly 0. -/
theorem C7_witness :
    ([loanB] ≠ []) ∧ loanB ∈ [loanB] ∧ loanB.paymentHistory = [] ∧
    historyRatio loanB = 0 :=
  ⟨List.cons_ne_nil loanB [], List.mem_singleton.mpr rfl, rfl,
    (C7_paymentHistoryFactor [loanB] (List.cons_ne_nil loanB [])).2.1 loanB
      (List.mem_singleton.mpr rfl) rfl⟩

/-- C8: an empty loan set yields the sentinel report with creditScore 0,
scoreRange No Credit History, no accounts, utilization 0 percent, zero
totals and zero open accounts; the weighted formula never produces 0
(its clamped output is at least 300), so the sentinel is not a product
of the scoring formula. -/
theorem C8_empty_sentinel :
    creditReport [] =
      { creditScore := 0
        scoreRange := "No Credit History"
        accounts := []
        creditUtilization := "0%"
        totalDebt := 0
        availableCredit := 0
        openAccounts := 0 } ∧
    ∀ loans : List Loan, 300 ≤ calculateCreditScore loans := by
  constructor
  · rfl
  · intro loans
    unfold calculateCreditScore
    omega

/-- A loan on which the two scoring variants disagree: one fresh
Pending loan with no history. -/
def c9loan : Loan :=
  { loanAmount := 2000, loanPurpose := "Home", loanTerm := 12,
    interestRate := 8.5, status := "Pending", loanType := "Term",
    creditLimit := 0, lenderName := "General Application",
    paymentHistory := [] }

/-- C9: the two scoring functions of the two credit-report call sites
are not extensionally equal: on a single fresh Pending loan the first
(base 300, weighted factors) returns 586 while the second
(400/200/10-per-purpose/raw-status-sum) returns 300. -/
theorem C9_variants_differ :
    calculateCreditScore [c9loan] = 586 ∧
    calculateCreditScore2 [c9loan] = 300 ∧
    calculateCreditScore [c9loan] ≠ calculateCreditScore2 [c9loan] := by
  have hv1 : calculateCreditScore [c9loan] = 586 := by
    have hph : paymentHistoryFactor [c9loan] = 0 := by
      norm_num [paymentHistoryFactor, historyRatio, paidCount, c9loan]
    have hut : utilizationFactor [c9loan] = 1 := by
      norm_num [utilizationFactor, totalDebt, totalCredit, c9loan]
    have hmix : creditMixFactor [c9loan] = 1 / 5 := by
      norm_num [creditMixFactor, c9loan, List.dedup]
    have hst : accountStatusFactor [c9loan] = 1 := by
      have h : statusWeight "Pending" = 1 := by simp [statusWeight]
      norm_num [accountStatusFactor, c9loan, h]
    norm_num [calculateCreditScore, weightedScore, hph, hut, hmix, hst,
      jsRound]
  have hv2 : calculateCreditScore2 [c9loan] = 300 := by
    have hfp : (List.filter (fun l => l.status = "Paid") [c9loan]).length = 0 :=
      by simp [c9loan]
    have hfa : (List.filter (fun l => l.status = "Active")
        [c9loan]).length = 0 := by simp [c9loan]
    have hfd : (List.filter (fun l => l.status = "Defaulted")
        [c9loan]).length = 0 := by simp [c9loan]
    have h1 : historyRatio c9loan = 0 := by
      norm_num [historyRatio, paidCount, c9loan]
    have h2 : totalCredit [c9loan] = 0 := by
      norm_num [totalCredit, c9loan]
    have hmx : ((([c9loan].map Loan.loanPurpose).dedup.length : ℕ) : ℚ) = 1 :=
      by norm_num [List.dedup]
    norm_num [calculateCreditScore2, h1, h2, hmx, hfp, hfa, hfd, jsRound]
  refine ⟨hv1, hv2, ?_⟩
  rw [hv1, hv2]
  decide

/-- C10: availableCredit of the first credit-report handler is a sum of
per-loan terms max(0, creditLimit - loanAmount) over Active Credit
loans, so it is nonnegative for every loan set, and a single loan whose
balance reaches or exceeds its credit limit contributes exactly 0. -/
theorem C10_availableCredit_nonneg :
    (∀ loans : List Loan, 0 ≤ availableCredit loans) ∧
    (∀ l : Loan, l.creditLimit ≤ l.loanAmount → availableCredit [l] = 0) := by
  constructor
  · intro loans
    unfold availableCredit
    apply List.sum_nonneg
    intro x hx
    simp only [List.mem_map] at hx
    obtain ⟨l, -, rfl⟩ := hx
    split
    · exact le_max_left 0 _
    · exact le_refl 0
  · intro l hl
    unfold availableCredit
    simp only [List.map_cons, List.map_nil, List.sum_cons, List.sum_nil,
      add_zero]
    split
    · rw [max_eq_left (by linarith)]
    · rfl

/-- Witness for C10: an Active Credit loan 1000 over its limit
contributes nothing, and the total stays nonnegative. -/
theorem C10_witness :
    { loanA with creditLimit := 4000 }.creditLimit ≤
      { loanA with creditLimit := 4000 }.loanAmount ∧
    availableCredit [{ loanA with creditLimit := 4000 }] = 0 ∧
    0 ≤ availableCredit [{ loanA with creditLimit := 4000 }] := by
  refine ⟨by norm_num [loanA], ?_, ?_⟩
  · exact C10_availableCredit_nonneg.2 { loanA with creditLimit := 4000 }
      (by norm_num [loanA])
  · exact C10_availableCredit_nonneg.1 [{ loanA with creditLimit := 4000 }]
